import Mathlib

/-!
Verification of the Acontext core service (server/core/acontext_core) against
its natural-language specification.  The Python sources are shallowly embedded:
pure fragments become Lean functions, DB/bus effects become explicit state
passing, and the `Result` success/error carrier is embedded as a structure.
Where a definition abstracts or models code that is absent from the sources,
its doc comment says so.
-/

set_option linter.unusedVariables false

namespace Acontext

/-! ### Result / Error model (schema/result.py, schema/error_code.py) -/

/-- Error kinds used by the service (schema/error_code.py; the enum file is
absent from the sources, the member names follow the spec section 4.A and the
call sites `Code.SUCCESS`, `Code.INTERNAL_ERROR`, `Code.BAD_REQUEST`). -/
inductive Code where
  | SUCCESS
  | BAD_REQUEST
  | NOT_FOUND
  | CONFLICT
  | INTERNAL_ERROR
  | LLM_ERROR
  | VALIDATION
deriving DecidableEq, Repr

/-- Error carrier (schema/result.py, class Error). -/
structure Error where
  status : Code
  errmsg : String
deriving DecidableEq, Repr

/-- Result carrier (schema/result.py, class Result): optional data plus an
error whose status is SUCCESS on the success path. -/
structure Result (α : Type) where
  data : Option α
  error : Error
deriving DecidableEq, Repr

/-- Result.resolve (schema/result.py). -/
def Result.resolve {α : Type} (a : α) : Result α :=
  ⟨some a, ⟨Code.SUCCESS, ""⟩⟩

/-- Result.reject (schema/result.py); the status argument is passed
explicitly (the Python default is Code.INTERNAL_ERROR). -/
def Result.reject {α : Type} (errmsg : String) (status : Code) : Result α :=
  ⟨none, ⟨status, errmsg⟩⟩

/-- Result.ok: the success test used by callers throughout the code base
(`r.ok()`), true exactly when the error status is SUCCESS. -/
def Result.ok {α : Type} (r : Result α) : Bool :=
  r.error.status = Code.SUCCESS

/-- Result.unpack (schema/result.py): `(None, error)` when the status is not
SUCCESS, `(data, None)` otherwise. -/
def Result.unpack {α : Type} (r : Result α) : Option α × Option Error :=
  if r.error.status = Code.SUCCESS then (r.data, none) else (none, some r.error)

/-- Truthiness of an optional value as Python evaluates it in an
`if x:` test: `None` is falsy, a boolean is its own truth value. -/
def pyTruthy : Option Bool → Bool
  | none => false
  | some b => b

/-! ### Task order insertion (service/data/task.py, insert_task) -/

/-- insert_task (service/data/task.py lines 138-187), restricted to the order
column of the tasks of one session.  The two SQL UPDATE statements become two
maps over the list of orders: first every order strictly greater than
after_order is negated, then every negative order o is replaced by -o + 1;
finally the new task is created with order after_order + 1.  The Python
`assert after_order >= 0` is carried as a hypothesis of the theorems. -/
def insert_task (orders : List Int) (after_order : Int) : List Int :=
  let phase1 := orders.map (fun o => if after_order < o then -o else o)
  let phase2 := phase1.map (fun o => if o < 0 then -o + 1 else o)
  phase2 ++ [after_order + 1]

/-- Gap-free check on an ascending-sorted list of orders: consecutive
entries differ by exactly one. -/
def gapFreeSorted : List Int → Bool
  | [] => true
  | [_] => true
  | a :: b :: rest => (b = a + 1 : Bool) && gapFreeSorted (b :: rest)

/-- Dense, gap-free, duplicate-free order sequence: sorting the orders
ascending yields a chain of +1 steps (spec section 3, Task invariant). -/
def isDense (l : List Int) : Bool :=
  gapFreeSorted (List.insertionSort (fun a b : Int => a ≤ b) l)

/-- Contiguous integer range s, s+1, ..., s+k-1. -/
def rangeList (s : Int) : Nat → List Int
  | 0 => []
  | k + 1 => s :: rangeList (s + 1) k

theorem rangeList_mem_le {s x : Int} : ∀ {k : Nat}, x ∈ rangeList s k → s ≤ x := by
  intro k
  induction k generalizing s with
  | zero => intro h; simp [rangeList] at h
  | succ n ih =>
    intro h
    simp only [rangeList, List.mem_cons] at h
    rcases h with h | h
    · omega
    · have := ih h; omega

theorem insert_task_pointwise (a o : Int) (ho : 0 ≤ o) (ha : 0 ≤ a) :
    (if ((if a < o then -o else o) : Int) < 0
      then -(if a < o then -o else o) + 1 else (if a < o then -o else o))
      = if a < o then o + 1 else o := by
  by_cases h : a < o
  · simp only [if_pos h]
    have : -o < 0 := by omega
    simp [this]
  · simp only [if_neg h]
    have : ¬(o < 0) := by omega
    simp [this]

theorem insert_task_eq_shift (orders : List Int) (a : Int)
    (hnn : ∀ o ∈ orders, 0 ≤ o) (ha : 0 ≤ a) :
    insert_task orders a
      = orders.map (fun o => if a < o then o + 1 else o) ++ [a + 1] := by
  unfold insert_task
  simp only [List.map_map]
  congr 1
  apply List.map_congr_left
  intro o ho
  exact insert_task_pointwise a o (hnn o ho) ha

/-- Mapping the successor-shift over a range wholly above the pivot adds one
to every element. -/
theorem map_shift_rangeList_above (a : Int) :
    ∀ (k : Nat) (s : Int), a < s →
      (rangeList s k).map (fun o => if a < o then o + 1 else o) = rangeList (s + 1) k := by
  intro k
  induction k with
  | zero => intro s h; simp [rangeList]
  | succ n ih =>
    intro s h
    simp only [rangeList, List.map_cons, if_pos h]
    rw [ih (s + 1) (by omega)]

theorem map_shift_rangeList_perm (a : Int) :
    ∀ (k : Nat) (s : Int), s ≤ a + 1 → a + 1 ≤ s + k →
      ((rangeList s k).map (fun o => if a < o then o + 1 else o) ++ [a + 1]).Perm
        (rangeList s (k + 1)) := by
  intro k
  induction k with
  | zero =>
    intro s h1 h2
    have : a + 1 = s := by omega
    simp [rangeList, this]
  | succ n ih =>
    intro s h1 h2
    by_cases hs : s ≤ a
    · have hna : ¬ a < s := by omega
      have hshift : (if a < s then s + 1 else s) = s := if_neg hna
      rw [show rangeList s (n + 1) = s :: rangeList (s + 1) n from rfl]
      rw [List.map_cons, hshift, List.cons_append]
      rw [show rangeList s (n + 1 + 1) = s :: rangeList (s + 1) (n + 1) from rfl]
      exact (ih (s + 1) (by omega) (by omega)).cons s
    · have hse : s = a + 1 := by omega
      have habove : a < s := by omega
      rw [map_shift_rangeList_above a (n + 1) s habove]
      rw [show rangeList s (n + 1 + 1) = s :: rangeList (s + 1) (n + 1) from rfl]
      rw [hse]
      exact List.perm_append_singleton _ _

/-! ### Retrieval engine (service/data/block_search.py, search_blocks) -/

/-- A candidate row fetched from storage: a block id paired with the cosine
distance of one of its embeddings.  Distances are modelled as rationals. -/
abbrev Row := Nat × ℚ

/-- Python `int(q)`: truncation toward zero. -/
def pyInt (q : ℚ) : Int :=
  if 0 ≤ q then ⌊q⌋ else -⌊-q⌋

/-- fetch_limit as computed in search_blocks (block_search.py line 69):
`int(topk * fetch_ratio)`. -/
def fetch_limit (topk : Nat) (fetch_ratio : ℚ) : Nat :=
  (pyInt ((topk : ℚ) * fetch_ratio)).toNat

/-- Ordering of rows by distance, used to model `ORDER BY distance ASC`. -/
def distLE (a b : Row) : Prop := a.2 ≤ b.2

instance : DecidableRel distLE := fun a b => inferInstanceAs (Decidable (a.2 ≤ b.2))

instance : IsTotal Row distLE := ⟨fun a b => le_total a.2 b.2⟩

instance : IsTrans Row distLE := ⟨fun _ _ _ hab hbc => le_trans hab hbc⟩

/-- Relational semantics of the vector-similarity query issued by
search_blocks (block_search.py lines 72-88): over the stored join rows of the
space already restricted to the requested block types and non-archived
blocks, keep the rows within the distance threshold, order them by ascending
distance and apply the LIMIT. -/
def vectorQuery (table : List Row) (threshold : ℚ) (lim : Nat) : List Row :=
  ((table.filter (fun r => r.2 ≤ threshold)).insertionSort distLE).take lim

/-- The Python-side deduplication loop of search_blocks (block_search.py
lines 92-99): walk the pre-ordered rows, skip a row whose block id was
already seen, keep the first occurrence of each block id. -/
def dedupFirst (seen : List Nat) : List Row → List Row
  | [] => []
  | r :: rest =>
    if r.1 ∈ seen then dedupFirst seen rest
    else r :: dedupFirst (r.1 :: seen) rest

/-- search_blocks (block_search.py lines 14-108) restricted to its pure
content: fetch the `fetch_limit` best rows under the threshold, deduplicate
per block id keeping the first occurrence, return the top `topk`. -/
def search_blocks (table : List Row) (threshold : ℚ) (topk : Nat)
    (fetch_ratio : ℚ) : List Row :=
  (dedupFirst [] (vectorQuery table threshold (fetch_limit topk fetch_ratio))).take topk

theorem dedupFirst_sublist (seen : List Nat) :
    ∀ l : List Row, (dedupFirst seen l).Sublist l := by
  intro l
  induction l generalizing seen with
  | nil => simp [dedupFirst]
  | cons r rest ih =>
    by_cases h : r.1 ∈ seen
    · simp only [dedupFirst, if_pos h]
      exact (ih seen).cons r
    · simp only [dedupFirst, if_neg h]
      exact (ih (r.1 :: seen)).cons₂ r

theorem dedupFirst_id_not_seen (seen : List Nat) :
    ∀ (l : List Row) (p : Row), p ∈ dedupFirst seen l → p.1 ∉ seen := by
  intro l
  induction l generalizing seen with
  | nil => intro p hp; simp [dedupFirst] at hp
  | cons r rest ih =>
    intro p hp
    by_cases h : r.1 ∈ seen
    · rw [dedupFirst, if_pos h] at hp
      exact ih seen p hp
    · rw [dedupFirst, if_neg h] at hp
      rcases List.mem_cons.mp hp with rfl | hp
      · exact h
      · intro hmem
        exact ih (r.1 :: seen) p hp (List.mem_cons_of_mem _ hmem)

theorem dedupFirst_nodup_ids (seen : List Nat) :
    ∀ l : List Row, ((dedupFirst seen l).map Prod.fst).Nodup := by
  intro l
  induction l generalizing seen with
  | nil => simp [dedupFirst]
  | cons r rest ih =>
    by_cases h : r.1 ∈ seen
    · rw [dedupFirst, if_pos h]; exact ih seen
    · rw [dedupFirst, if_neg h]
      rw [List.map_cons, List.nodup_cons]
      refine ⟨?_, ih (r.1 :: seen)⟩
      intro hmem
      rcases List.mem_map.mp hmem with ⟨p, hp, hid⟩
      exact dedupFirst_id_not_seen (r.1 :: seen) rest p hp (hid ▸ List.mem_cons_self _ _)

theorem dedupFirst_min_dist :
    ∀ l : List Row, l.Pairwise distLE →
      ∀ seen : List Nat, ∀ p ∈ dedupFirst seen l, ∀ q ∈ l, q.1 = p.1 → p.2 ≤ q.2 := by
  intro l
  induction l with
  | nil => intro _ seen p hp; simp [dedupFirst] at hp
  | cons r rest ih =>
    intro hs seen p hp q hq hid
    have hrrest : ∀ x ∈ rest, distLE r x := (List.pairwise_cons.mp hs).1
    have hrest : rest.Pairwise distLE := (List.pairwise_cons.mp hs).2
    by_cases h : r.1 ∈ seen
    · rw [dedupFirst, if_pos h] at hp
      rcases List.mem_cons.mp hq with hqr | hq
      · subst hqr
        exact absurd (hid ▸ h) (dedupFirst_id_not_seen seen rest p hp)
      · exact ih hrest seen p hp q hq hid
    · rw [dedupFirst, if_neg h] at hp
      rcases List.mem_cons.mp hp with hpr | hp
      · subst hpr
        rcases List.mem_cons.mp hq with hqr | hq
        · subst hqr; exact le_refl _
        · exact hrrest q hq
      · rcases List.mem_cons.mp hq with hqr | hq
        · subst hqr
          have hmem : p.1 ∈ q.1 :: seen := by
            rw [hid]; exact List.mem_cons_self _ _
          exact absurd hmem (dedupFirst_id_not_seen (q.1 :: seen) rest p hp)
        · exact ih hrest (r.1 :: seen) p hp q hq hid

theorem vectorQuery_pairwise (table : List Row) (threshold : ℚ) (lim : Nat) :
    (vectorQuery table threshold lim).Pairwise distLE :=
  (List.sorted_insertionSort distLE _).sublist (List.take_sublist _ _)

theorem vectorQuery_mem_le (table : List Row) (threshold : ℚ) (lim : Nat) :
    ∀ p ∈ vectorQuery table threshold lim, p.2 ≤ threshold := by
  intro p hp
  have h1 : p ∈ (table.filter (fun r => r.2 ≤ threshold)).insertionSort distLE :=
    List.take_subset _ _ hp
  have h2 : p ∈ table.filter (fun r => r.2 ≤ threshold) :=
    (List.perm_insertionSort distLE _).mem_iff.mp h1
  simpa using List.of_mem_filter h2

/-! ### Agent tool-call loop (llm/agent/task.py, space_construct.py, task_sop.py) -/

/-- One tool call returned by the LLM: id, function name and the raw
arguments string. -/
structure ToolCallM where
  id : String
  name : String
  arguments : String
deriving DecidableEq, Repr

/-- A tool-response message appended to the history
(`role=tool, tool_call_id, content`). -/
structure ToolMsg where
  tool_call_id : String
  content : String
deriving DecidableEq, Repr

/-- Outcome of processing the tool calls of one LLM turn: either the agent
run aborts with an error Result (the `return r` inside the loop), or the
accumulated tool responses are ready to extend the history together with the
finish flag. -/
inductive LoopOut where
  | abort (r : Result String)
  | responses (msgs : List ToolMsg) (just_finish : Bool)
deriving DecidableEq, Repr

/-- A tool pool maps a tool name to a handler.  Handlers are abstracted to a
function from the raw arguments string to a Result (the ctx threading of the
concrete agents is irrelevant to the control flow modelled here). -/
abbrev ToolPoolM := String → Option (String → Result String)

/-- Modelled from the spec: the registry lookup of the tool pool classes
(ToolPool, llm/tool/base.py, a file absent from the sources).  Spec section
4.C: an unknown tool name returned by the LLM makes the registry emit a
tool-not-found tool response, which the agent appends before continuing; the
KeyError guard of the agent loops is then unreachable for pool lookups. -/
def lookupTool (pool : ToolPoolM) (name : String) : String → Result String :=
  match pool name with
  | some h => h
  | none => fun _ => Result.resolve ("Tool " ++ name ++ " not found")

/-- The per-turn tool-call processing shared by the three agent loops
(task.py lines 167-202, space_construct.py lines 108-142, task_sop.py lines
104-128): walk the calls in order; the name `finish` only sets the finish
flag; otherwise run the handler and unpack its Result — any error aborts the
whole run with that Result (`t, eil = r.unpack(); if eil: return r`), a
success is appended to the tool responses. -/
def processToolCalls (pool : ToolPoolM) :
    List ToolCallM → List ToolMsg → Bool → LoopOut
  | [], acc, just_finish => LoopOut.responses acc just_finish
  | c :: rest, acc, just_finish =>
    if c.name = "finish" then processToolCalls pool rest acc true
    else
      let r := lookupTool pool c.name c.arguments
      match r.unpack with
      | (_, some _) => LoopOut.abort r
      | (t, none) =>
        processToolCalls pool rest (acc ++ [⟨c.id, t.getD ""⟩]) just_finish

/-! ### Space-construction tool handlers (llm/tool/space_lib) -/

/-- Block type constant BLOCK_TYPE_PAGE (schema/orm/block.py). -/
def BLOCK_TYPE_PAGE : String := "page"

/-- The fields of a block needed by the handlers: id and type. -/
structure BlockT where
  id : Nat
  type : String
deriving DecidableEq, Repr

/-- The SpaceCtx carried by the space-construction tools
(llm/tool/space_lib/ctx.py, a file absent from the sources; fields follow
build_space_ctx in llm/agent/space_construct.py lines 28-36).  The two
DB-facing collaborators are abstracted:
* find_block — modelled from the spec: resolves a path against the path map
  and the block store, yielding a block or an error;
* write_ok — modelled from the spec: write_block_to_page
  (service/data/block_write.py, absent from the sources) inserts a content
  block into a page, and may fail with an error message; db_blocks records
  the blocks actually written. -/
structure SpaceCtxM where
  candidate_data : List String
  already_inserted_candidate_data : List Int
  task_ids : List Nat
  path_2_block_ids : List (String × Option Nat)
  find_block : String → Except String BlockT
  write_ok : Nat → String → Int → Option String
  db_blocks : List (Nat × String × Int)

/-- The parsed argument dictionary of insert_candidate_data_as_content: each
key may be absent. -/
structure InsertArgs where
  page_path : Option String
  after_block_index : Option Int
  candidate_index : Option Int
deriving DecidableEq, Repr

/-- _insert_data_handler
(llm/tool/space_lib/insert_candidate_data_as_content.py lines 14-53),
embedded with explicit ctx threading.  Note the source adds candidate_index
to already_inserted_candidate_data before resolving the page path and before
the block write. -/
def _insert_data_handler (ctx : SpaceCtxM) (llm_arguments : InsertArgs) :
    SpaceCtxM × Result String :=
  match llm_arguments.page_path with
  | none => (ctx, Result.resolve "page_path is required")
  | some page_path =>
  match llm_arguments.after_block_index with
  | none => (ctx, Result.resolve "after_block_index is required")
  | some after_block_index =>
  match llm_arguments.candidate_index with
  | none => (ctx, Result.resolve "candidate_index is required")
  | some candidate_index =>
  if candidate_index < 0 ∨ (ctx.candidate_data.length : Int) ≤ candidate_index then
    (ctx, Result.resolve ("Invalid candidate_index: " ++ toString candidate_index))
  else if candidate_index ∈ ctx.already_inserted_candidate_data then
    (ctx, Result.resolve
      ("Candidate data " ++ toString candidate_index ++ " already inserted"))
  else
    let ctx1 := { ctx with
      already_inserted_candidate_data :=
        candidate_index :: ctx.already_inserted_candidate_data }
    let insert_data := ctx1.candidate_data.getD candidate_index.toNat ""
    match ctx1.find_block page_path with
    | Except.error e =>
      (ctx1, Result.resolve ("Page " ++ page_path ++ " not found: " ++ e))
    | Except.ok page_block =>
      if page_block.type ≠ BLOCK_TYPE_PAGE then
        (ctx1, Result.resolve
          ("Path " ++ page_path ++ " is not a page (type: " ++ page_block.type ++ ")"))
      else
        match ctx1.write_ok page_block.id insert_data after_block_index with
        | some e =>
          (ctx1, Result.resolve ("Failed to insert candidate data: " ++ e))
        | none =>
          ({ ctx1 with db_blocks :=
              ctx1.db_blocks ++ [(page_block.id, insert_data, after_block_index)] },
            Result.resolve
              ("Inserted candidate data " ++ toString candidate_index
                ++ " to page " ++ page_path ++ " after block index "
                ++ toString after_block_index))

/-- The post-hook of the space-construction agent (space_construct.py lines
149-159 with set_space_digests in insert_candidate_data_as_content.py lines
10-11): for every index in already_inserted_candidate_data, the task
ctx.task_ids[index] gets space_digested set; this returns the list of task
ids so marked. -/
def spaceConstructPostHook (ctx : SpaceCtxM) : List Nat :=
  ctx.already_inserted_candidate_data.map (fun i => ctx.task_ids.getD i.toNat 0)

/-- The parsed argument dictionary of the ls tool. -/
structure LsArgs where
  folder_path : Option String
  depth : Option Int
deriving DecidableEq, Repr

/-- _ls_handler (llm/tool/space_lib/ls.py lines 11-18): reads the arguments
with their defaults and returns the constant string "fool" without touching
the ctx. -/
def _ls_handler (ctx : SpaceCtxM) (llm_arguments : LsArgs) :
    SpaceCtxM × Result String :=
  let depth := llm_arguments.depth.getD 3
  let folder_path := llm_arguments.folder_path.getD "/"
  (ctx, Result.resolve "fool")

/-! ### Task-complete bus handler (service/space_task.py, complete_new_task;
service/data/task.py, set_task_space_digested) -/

/-- Session row restricted to the field the handler reads. -/
structure SessionRow where
  space_id : Option Nat
deriving DecidableEq, Repr

/-- Task row restricted to the fields the handler reads. -/
structure TaskRow where
  id : Nat
  space_digested : Bool
deriving DecidableEq, Repr

/-- Database state seen by complete_new_task for one delivered message:
the referenced session and task rows and the outcome of the project-config
fetch (service/data/project.py is absent from the sources, so it is kept
abstract as a stored Result). -/
structure DBState where
  session : Option SessionRow
  task : Option TaskRow
  config : Result Unit
deriving DecidableEq, Repr

/-- set_task_space_digested (service/data/task.py lines 126-135): issues an
unconditional UPDATE setting space_digested = True and returns
Result.resolve(None) — the Python Result carries data None, modelled by a
success Result whose data field is none.  In particular the prior value of
space_digested is not returned, despite the comment in the source about
checking the current status. -/
def set_task_space_digested (st : DBState) : DBState × Result Bool :=
  ({ st with task := st.task.map (fun t => { t with space_digested := true }) },
    ⟨none, ⟨Code.SUCCESS, ""⟩⟩)

/-- Outcome of one delivery of the task-complete bus message. -/
inductive TaskCompleteOutcome where
  | sessionNotFound
  | noLinkedSpace
  | taskNotFound
  | setDigestedFailed
  | alreadyDigestedNoop
  | configFailed
  | ranPipeline
deriving DecidableEq, Repr

/-- complete_new_task (service/space_task.py lines 29-61): fetch the session
and its linked space, fetch the task, call set_task_space_digested, unpack
its data into already_digested, return early when that value is truthy, else
fetch the project config and run the digestion pipeline
(process_space_pending_task). -/
def complete_new_task (st : DBState) : DBState × TaskCompleteOutcome :=
  match st.session with
  | none => (st, TaskCompleteOutcome.sessionNotFound)
  | some session_data =>
    match session_data.space_id with
    | none => (st, TaskCompleteOutcome.noLinkedSpace)
    | some _ =>
      match st.task with
      | none => (st, TaskCompleteOutcome.taskNotFound)
      | some _ =>
        let (st1, r) := set_task_space_digested st
        if ¬ r.ok then (st1, TaskCompleteOutcome.setDigestedFailed)
        else
          let already_digested := r.unpack.1
          if pyTruthy already_digested then
            (st1, TaskCompleteOutcome.alreadyDigestedNoop)
          else
            match st1.config.unpack with
            | (_, some _) => (st1, TaskCompleteOutcome.configFailed)
            | (_, none) => (st1, TaskCompleteOutcome.ranPipeline)

/-! ### Bus handler signature check (util/handler_spec.py) -/

/-- What the sanity check observes about a type annotation: whether it is
exactly the broker Message class, whether it is a class at all (issubclass
raises TypeError on a non-class), and whether it is a subclass of
BaseModel. -/
structure Hint where
  isMessageType : Bool
  isClass : Bool
  isBaseModelSub : Bool
deriving DecidableEq, Repr

/-- A function parameter: its name and its optional annotation. -/
structure ParamM where
  name : String
  hint : Option Hint
deriving DecidableEq, Repr

/-- A function signature as inspected by the check: the ordered parameter
list. -/
structure FuncSig where
  params : List ParamM
deriving DecidableEq, Repr

/-- Python exceptions the check can raise. -/
inductive PyErr where
  | indexError
  | keyError
  | typeError
deriving DecidableEq, Repr

/-- get_type_hints restricted to parameter annotations: lookup by parameter
name; an unannotated parameter is absent from the mapping (so indexing it
raises KeyError). -/
def typeHints (f : FuncSig) (n : String) : Option Hint :=
  (f.params.find? (fun p => p.name = n)).bind (fun p => p.hint)

/-- check_handler_function_sanity (util/handler_spec.py lines 12-33):
first the name loop over MUST_PARAM_ORDER_NAMES = [body, message]
(indexing params raises IndexError when too short), then the identity check
of type_hints[message] against the broker Message class, then the
issubclass check of type_hints[body] against BaseModel.  Exceptions are
modelled in the error component of Except; the type-mismatch reject
messages keep only the fixed prefix and the parameter name, since the
interpolated type reprs are outside the model. -/
def check_handler_function_sanity (f : FuncSig) : Except PyErr (Result Unit) :=
  match f.params.get? 0 with
  | none => Except.error PyErr.indexError
  | some p0 =>
    if p0.name ≠ "body" then
      Except.ok (Result.reject
        ("0th Parameter order mismatch: " ++ p0.name ++ " != body")
        Code.INTERNAL_ERROR)
    else
      match f.params.get? 1 with
      | none => Except.error PyErr.indexError
      | some p1 =>
        if p1.name ≠ "message" then
          Except.ok (Result.reject
            ("1th Parameter order mismatch: " ++ p1.name ++ " != message")
            Code.INTERNAL_ERROR)
        else
          match typeHints f "message" with
          | none => Except.error PyErr.keyError
          | some hm =>
            if ¬ hm.isMessageType then
              Except.ok (Result.reject "Parameter type mismatch message"
                Code.INTERNAL_ERROR)
            else
              match typeHints f "body" with
              | none => Except.error PyErr.keyError
              | some hb =>
                if ¬ hb.isClass then Except.error PyErr.typeError
                else if ¬ hb.isBaseModelSub then
                  Except.ok (Result.reject "Parameter sub type mismatch body"
                    Code.INTERNAL_ERROR)
                else Except.ok (Result.resolve ())

/-- Specification-style statement of when the check succeeds, written from
the claim wording: the first two parameters are named body and message, the
message parameter is annotated with the broker Message type, and the body
parameter is annotated with a class that subclasses BaseModel. -/
def sanitySuccessSpec (f : FuncSig) : Bool :=
  match f.params.get? 0, f.params.get? 1 with
  | some p0, some p1 =>
    p0.name = "body" && p1.name = "message"
      && (match typeHints f "message" with
          | some hm => hm.isMessageType
          | none => false)
      && (match typeHints f "body" with
          | some hb => hb.isClass && hb.isBaseModelSub
          | none => false)
  | _, _ => false

/-- The parameter names the check compares against, position by position. -/
def namesPrefixOk (f : FuncSig) : Bool :=
  (f.params.zip ["body", "message"]).all (fun pn => pn.1.name = pn.2)

/-! ## Claim theorems -/

/-- C1 counterexample: the claim promises a dense, gap-free order sequence
after every insert_task call with after_order >= 0, but calling insert_task
with after_order = 5 on a session whose task orders are the dense sequence
[1, 2] yields orders [1, 2, 6], which has a gap. -/
theorem C1_counterexample :
    (0 : Int) ≤ 5 ∧ isDense [1, 2] = true
      ∧ insert_task [1, 2] 5 = [1, 2, 6]
      ∧ isDense (insert_task [1, 2] 5) = false := by
  decide

/-- C1 amended: when the session task orders form the contiguous range
starting at s (s nonnegative, e.g. 0 with a planning task or 1 without) and
after_order + 1 falls inside the extended range, insert_task shifts by one
exactly the pre-existing tasks of order greater than after_order, leaves the
others unchanged, appends the new task with order after_order + 1, and the
resulting orders are exactly the contiguous range with one more element. -/
theorem C1_amended (orders : List Int) (s after_order : Int) (k : Nat)
    (hs : 0 ≤ s) (hperm : orders.Perm (rangeList s k)) (ha : 0 ≤ after_order)
    (h1 : s ≤ after_order + 1) (h2 : after_order + 1 ≤ s + k) :
    insert_task orders after_order
        = orders.map (fun o => if after_order < o then o + 1 else o)
            ++ [after_order + 1]
      ∧ (insert_task orders after_order).Perm (rangeList s (k + 1)) := by
  have hnn : ∀ o ∈ orders, 0 ≤ o := fun o ho =>
    le_trans hs (rangeList_mem_le (hperm.subset ho))
  have heq := insert_task_eq_shift orders after_order hnn ha
  refine ⟨heq, ?_⟩
  rw [heq]
  have hmap := hperm.map (fun o => if after_order < o then o + 1 else o)
  exact (hmap.append_right [after_order + 1]).trans
    (map_shift_rangeList_perm after_order k s h1 h2)

/-- C1 witness: inserting after order 1 into the dense session [1, 2] gives
orders [1, 3, 2], a permutation of the dense range 1..3. -/
theorem C1_witness :
    insert_task [1, 2] 1 = [1, 3, 2]
      ∧ (insert_task [1, 2] 1).Perm (rangeList 1 3) := by
  have h := C1_amended [1, 2] 1 1 2 (by decide)
    (by rw [show rangeList 1 2 = [1, 2] from rfl]) (by decide) (by decide) (by decide)
  exact ⟨h.1.trans (by decide), h.2⟩

/-- C6: every pair returned by search_blocks is within the threshold, the
returned list is ordered by non-decreasing distance, no block id repeats, at
most topk pairs are returned, and each kept pair carries the lowest distance
among the fetched rows of its block. -/
theorem C6_search_blocks_properties (table : List Row) (threshold : ℚ)
    (topk : Nat) (fetch_ratio : ℚ) :
    (∀ p ∈ search_blocks table threshold topk fetch_ratio, p.2 ≤ threshold)
    ∧ (search_blocks table threshold topk fetch_ratio).Pairwise distLE
    ∧ ((search_blocks table threshold topk fetch_ratio).map Prod.fst).Nodup
    ∧ (search_blocks table threshold topk fetch_ratio).length ≤ topk
    ∧ (∀ p ∈ search_blocks table threshold topk fetch_ratio,
        ∀ q ∈ vectorQuery table threshold (fetch_limit topk fetch_ratio),
          q.1 = p.1 → p.2 ≤ q.2) := by
  have hsubl : (search_blocks table threshold topk fetch_ratio).Sublist
      (vectorQuery table threshold (fetch_limit topk fetch_ratio)) :=
    (List.take_sublist _ _).trans (dedupFirst_sublist [] _)
  refine ⟨?_, ?_, ?_, ?_, ?_⟩
  · intro p hp
    exact vectorQuery_mem_le table threshold _ p (hsubl.subset hp)
  · exact (vectorQuery_pairwise table threshold _).sublist hsubl
  · exact List.Nodup.sublist
      ((List.take_sublist _ _).map Prod.fst) (dedupFirst_nodup_ids [] _)
  · exact List.length_take_le _ _
  · intro p hp q hq hid
    exact dedupFirst_min_dist _ (vectorQuery_pairwise table threshold _) []
      p (List.take_subset _ _ hp) q hq hid

/-- C7 counterexample: for topk = 3 and fetch_ratio = 3/2 the limit computed
by search_blocks is int(4.5) = 4, whereas the claimed ceil(topk *
fetch_ratio) is 5. -/
theorem C7_counterexample :
    fetch_limit 3 (3 / 2) = 4
      ∧ ⌈((3 : Nat) : ℚ) * (3 / 2)⌉ = 5
      ∧ (4 : Int) ≠ 5 := by
  have hq : ((3 : Nat) : ℚ) * (3 / 2) = 9 / 2 := by push_cast; norm_num
  refine ⟨?_, ?_, by decide⟩
  · unfold fetch_limit pyInt
    rw [hq, if_pos (by norm_num : (0 : ℚ) ≤ 9 / 2)]
    rw [show ⌊(9 / 2 : ℚ)⌋ = 4 from by rw [Int.floor_eq_iff]; norm_num]
    rfl
  · rw [hq]
    rw [Int.ceil_eq_iff]
    norm_num

/-- C7 amended: for nonnegative fetch_ratio the limit applied to the vector
query is the floor (Python int truncation) of topk * fetch_ratio, not its
ceiling. -/
theorem C7_amended (topk : Nat) (fetch_ratio : ℚ) (h : 0 ≤ fetch_ratio)
    (table : List Row) (threshold : ℚ) :
    fetch_limit topk fetch_ratio = (⌊(topk : ℚ) * fetch_ratio⌋).toNat
    ∧ search_blocks table threshold topk fetch_ratio
        = (dedupFirst [] (vectorQuery table threshold
            (⌊(topk : ℚ) * fetch_ratio⌋).toNat)).take topk := by
  have h0 : 0 ≤ (topk : ℚ) * fetch_ratio := mul_nonneg (by positivity) h
  have hfl : fetch_limit topk fetch_ratio = (⌊(topk : ℚ) * fetch_ratio⌋).toNat := by
    unfold fetch_limit pyInt
    rw [if_pos h0]
  exact ⟨hfl, by rw [search_blocks, hfl]⟩

/-- C7 witness: at topk = 3 and fetch_ratio = 3/2 the amended statement
evaluates: the limit is the floor of 4.5. -/
theorem C7_witness :
    fetch_limit 3 (3 / 2) = (⌊((3 : Nat) : ℚ) * (3 / 2)⌋).toNat :=
  (C7_amended 3 (3 / 2) (by norm_num) [] 0).1

/-- A pool whose single tool rejects with a validation error, as a tool
handler may after a failed invariant check. -/
def validationPool : ToolPoolM := fun n =>
  if n = "update_task" then
    some (fun _ => Result.reject "status transition not allowed" Code.VALIDATION)
  else none

/-- A pool whose single tool rejects with a conflict error. -/
def conflictPool : ToolPoolM := fun n =>
  if n = "insert_task" then
    some (fun _ => Result.reject "order conflict" Code.CONFLICT)
  else none

/-- C3 counterexample: a handler that returns an error Result of kind
validation makes the loop abort the whole agent run with that error, instead
of wrapping it into a tool response and continuing as the claim states. -/
theorem C3_counterexample :
    processToolCalls validationPool [⟨"call_1", "update_task", "args"⟩] [] false
      = LoopOut.abort
          (Result.reject "status transition not allowed" Code.VALIDATION) := by
  decide

/-- C3 amended: in the agent tool loops, a handler error Result of any kind,
validation included, aborts the whole agent run with that error; handlers
that want the LLM to self-correct return success Results carrying the
problem description instead. -/
theorem C3_amended (pool : ToolPoolM) (c : ToolCallM) (rest : List ToolCallM)
    (acc : List ToolMsg) (just_finish : Bool) (code : Code) (msg : String)
    (hfin : c.name ≠ "finish")
    (herr : lookupTool pool c.name c.arguments = Result.reject msg code)
    (hcode : code ≠ Code.SUCCESS) :
    processToolCalls pool (c :: rest) acc just_finish
      = LoopOut.abort (Result.reject msg code) := by
  rw [processToolCalls, if_neg hfin, herr]
  simp [Result.unpack, Result.reject, hcode]

/-- C3 witness: a conflict-kind handler error aborts the run with that
error. -/
theorem C3_witness :
    processToolCalls conflictPool [⟨"call_2", "insert_task", "args"⟩] [] false
      = LoopOut.abort (Result.reject "order conflict" Code.CONFLICT) :=
  C3_amended conflictPool ⟨"call_2", "insert_task", "args"⟩ [] [] false
    Code.CONFLICT "order conflict" (by decide) rfl (by decide)

/-- C4: a tool call whose function name is neither finish nor a key of the
tool pool makes the loop append a tool-not-found tool response and continue
with the remaining tool calls; the run does not abort.  The tool pool lookup
is modelled from the spec (the ToolPool class file is absent from the
sources). -/
theorem C4_unknown_tool (pool : ToolPoolM) (c : ToolCallM)
    (rest : List ToolCallM) (acc : List ToolMsg) (just_finish : Bool)
    (hfin : c.name ≠ "finish") (hmiss : pool c.name = none) :
    processToolCalls pool (c :: rest) acc just_finish
      = processToolCalls pool rest
          (acc ++ [⟨c.id, "Tool " ++ c.name ++ " not found"⟩]) just_finish := by
  rw [processToolCalls, if_neg hfin]
  have hl : lookupTool pool c.name
      = fun _ => Result.resolve ("Tool " ++ c.name ++ " not found") := by
    unfold lookupTool
    rw [hmiss]
  rw [hl]
  simp [Result.unpack, Result.resolve]

/-- A pool with no tools at all. -/
def emptyPool : ToolPoolM := fun _ => none

/-- C4 witness: an unknown tool name yields a tool-not-found response
appended to the turn responses, with the loop proceeding on the remaining
calls. -/
theorem C4_witness :
    processToolCalls emptyPool [⟨"call_9", "ghost_tool", "args"⟩] [] false
      = processToolCalls emptyPool []
          [⟨"call_9", "Tool ghost_tool not found"⟩] false :=
  C4_unknown_tool emptyPool ⟨"call_9", "ghost_tool", "args"⟩ [] [] false
    (by decide) rfl

/-- SpaceCtx of a construction run carrying one SOP candidate for task 7,
whose page path does not resolve to any block. -/
def ctxC2 : SpaceCtxM :=
  { candidate_data := ["sop candidate"]
    already_inserted_candidate_data := []
    task_ids := [7]
    path_2_block_ids := [("/", none)]
    find_block := fun _ => Except.error "no block at path"
    write_ok := fun _ _ _ => none
    db_blocks := [] }

/-- Arguments of an insert call whose page path cannot be resolved. -/
def argsC2 : InsertArgs := ⟨some "/Guides", some 0, some 0⟩

/-- C2: the handler records candidate 0 as inserted before resolving the
page path, so on an unresolvable path the tool reports the failure to the
LLM, no block is written, and the post-hook nevertheless marks task 7 as
space_digested — contradicting the claim that only actually inserted
candidates get their task digested. -/
theorem C2_digest_without_insert :
    (_insert_data_handler ctxC2 argsC2).2
        = Result.resolve "Page /Guides not found: no block at path"
    ∧ (_insert_data_handler ctxC2 argsC2).1.db_blocks = []
    ∧ (_insert_data_handler ctxC2 argsC2).1.already_inserted_candidate_data = [0]
    ∧ spaceConstructPostHook (_insert_data_handler ctxC2 argsC2).1 = [7] :=
  ⟨rfl, rfl, rfl, rfl⟩

/-- Database state of a duplicate delivery: the session is linked to space
42 and task 9 already has space_digested = true. -/
def stC5 : DBState :=
  { session := some ⟨some 42⟩
    task := some ⟨9, true⟩
    config := Result.resolve () }

/-- C5: the duplicate-delivery no-op branch of complete_new_task is dead —
set_task_space_digested returns a data-less success, so already_digested is
always None — and a redelivered task-complete message for an
already-digested task runs the digestion pipeline again instead of
no-opping. -/
theorem C5_duplicate_delivery_reruns :
    (∀ st : DBState,
        (complete_new_task st).2 ≠ TaskCompleteOutcome.alreadyDigestedNoop)
    ∧ (complete_new_task stC5).2 = TaskCompleteOutcome.ranPipeline := by
  constructor
  · intro st
    rcases st with ⟨sess, task, config⟩
    cases sess with
    | none => simp [complete_new_task]
    | some s =>
      rcases s with ⟨_ | sp⟩
      · simp [complete_new_task]
      · cases task with
        | none => simp [complete_new_task]
        | some t =>
          by_cases hc : config.error.status = Code.SUCCESS
          · simp [complete_new_task, set_task_space_digested, Result.ok,
              Result.unpack, pyTruthy, hc]
          · simp [complete_new_task, set_task_space_digested, Result.ok,
              Result.unpack, pyTruthy, hc]
  · rfl

/-- C8: the ls tool handler ignores its arguments and the block store,
returns the constant string fool to the LLM, and leaves the ctx — in
particular its path-to-block-id map — unchanged, instead of rendering
list_paths_under_block as the claim states. -/
theorem C8_ls_returns_fool (ctx : SpaceCtxM) (llm_arguments : LsArgs) :
    _ls_handler ctx llm_arguments = (ctx, Result.resolve "fool") :=
  rfl

/-- C9: the insert_candidate_data_as_content handler is total and never
returns an error Result — every path, including missing arguments, bad
candidate indices, double insertion, unresolvable or non-page paths and
failed writes, yields a success Result whose string describes the case. -/
theorem C9_insert_handler_total (ctx : SpaceCtxM) (llm_arguments : InsertArgs) :
    ∃ s : String, (_insert_data_handler ctx llm_arguments).2 = Result.resolve s := by
  unfold _insert_data_handler
  rcases llm_arguments with ⟨_ | pp, _ | abi, _ | ci⟩ <;>
    first
      | exact ⟨_, rfl⟩
      | (repeat first | exact ⟨_, rfl⟩ | split | dsimp only)

/-- A function with a single parameter not named body. -/
def fOneParam : FuncSig := ⟨[⟨"x", none⟩]⟩

/-- C10 counterexample: a function with fewer than two parameters does not
always raise IndexError — with a single parameter named x the name check at
position 0 fails first and the check returns a rejected Result. -/
theorem C10_counterexample :
    fOneParam.params.length < 2
    ∧ check_handler_function_sanity fOneParam
        = Except.ok (Result.reject
            "0th Parameter order mismatch: x != body" Code.INTERNAL_ERROR) := by
  exact ⟨by decide, rfl⟩

/-- C10 amended: the check returns a success Result exactly when the first
two parameters are named body and message, the message parameter is
annotated with the broker Message type and the body parameter with a class
subclassing BaseModel; a function with fewer than two parameters raises an
uncaught IndexError exactly when each parameter it does have matches the
expected name at its position (always for zero parameters), and otherwise
returns a rejected Result. -/
theorem C10_amended (f : FuncSig) :
    (check_handler_function_sanity f = Except.ok (Result.resolve ())
        ↔ sanitySuccessSpec f = true)
    ∧ (f.params.length < 2 →
        (check_handler_function_sanity f = Except.error PyErr.indexError
          ↔ namesPrefixOk f = true)) := by
  rcases f with ⟨params⟩
  match params with
  | [] =>
    refine ⟨?_, fun _ => ?_⟩
    · simp [check_handler_function_sanity, sanitySuccessSpec]
    · simp [check_handler_function_sanity, namesPrefixOk]
  | [p0] =>
    refine ⟨?_, fun _ => ?_⟩
    · by_cases h : p0.name = "body"
      · simp [check_handler_function_sanity, sanitySuccessSpec, h]
      · simp [check_handler_function_sanity, sanitySuccessSpec, h,
          Result.reject, Result.resolve]
    · by_cases h : p0.name = "body"
      · simp [check_handler_function_sanity, namesPrefixOk, h]
      · simp [check_handler_function_sanity, namesPrefixOk, h,
          Result.reject]
  | p0 :: p1 :: rest =>
    refine ⟨?_, fun hlen => absurd hlen (by simp)⟩
    by_cases h0 : p0.name = "body"
    · by_cases h1 : p1.name = "message"
      · rcases hm : typeHints ⟨p0 :: p1 :: rest⟩ "message" with _ | hmt
        · simp [check_handler_function_sanity, sanitySuccessSpec, h0, h1, hm]
        · by_cases hmsg : hmt.isMessageType
          · rcases hb : typeHints ⟨p0 :: p1 :: rest⟩ "body" with _ | hbt
            · simp [check_handler_function_sanity, sanitySuccessSpec,
                h0, h1, hm, hb, hmsg]
            · by_cases hcls : hbt.isClass
              · by_cases hsub : hbt.isBaseModelSub
                · simp [check_handler_function_sanity, sanitySuccessSpec,
                    h0, h1, hm, hb, hmsg, hcls, hsub, Result.resolve]
                · simp [check_handler_function_sanity, sanitySuccessSpec,
                    h0, h1, hm, hb, hmsg, hcls, hsub,
                    Result.reject, Result.resolve]
              · simp [check_handler_function_sanity, sanitySuccessSpec,
                  h0, h1, hm, hb, hmsg, hcls]
          · simp [check_handler_function_sanity, sanitySuccessSpec,
              h0, h1, hm, hmsg, Result.reject, Result.resolve]
      · simp [check_handler_function_sanity, sanitySuccessSpec, h0, h1,
          Result.reject, Result.resolve]
    · simp [check_handler_function_sanity, sanitySuccessSpec, h0,
        Result.reject, Result.resolve]

/-- A function with zero parameters. -/
def fZeroParams : FuncSig := ⟨[]⟩

/-- C10 witness: the check applied to a zero-parameter function raises
IndexError, as the amended statement predicts. -/
theorem C10_witness :
    check_handler_function_sanity fZeroParams = Except.error PyErr.indexError :=
  ((C10_amended fZeroParams).2 (by decide)).mpr (by decide)

end Acontext
